import Mathlib

/-!
Verification of `config_generator.py` (xnord-gen): a shallow embedding of the
NordVPN endpoint-selection logic (`NordVPNClient.get_recommended_server`),
the Xray configuration assembler (`XrayConfigBuilder`), the deployment
manifest assembler (`ComposeBuilder`), and the driving `main` loop, together
with theorems settling the specification's claims about them.

Conventions of the embedding:
 - Python dict fields accessed with `.get(k, d)` are modelled as `Option`
   fields read through `getD`; fields accessed with brackets (always present
   in the data the code consumes) are plain fields.
 - Network I/O is an explicit input: each HTTP attempt's outcome is a value
   of `AttemptOutcome`, and the per-country endpoint lookup performed by
   `main` is a function `fetch : Nat → Option Endpoint`.
 - `uuid.uuid4()` draws are an explicit input stream `uuid : Nat → String`,
   consumed in call order.
 - Python's `list.sort` is a stable sort; it is modelled by a stable
   insertion sort on the load key (stable sorts by a key agree pointwise).
-/

namespace XNordGen

/-- One entry of a technology's `metadata` list (`{name, value}`). -/
structure MetaEntry where
  name : String
  value : String
deriving DecidableEq, Repr

/-- One entry of a server's `technologies` list: an id plus metadata.
`metadata` is read with `tech.get('metadata', [])`-style iteration. -/
structure Technology where
  id : Nat
  metadata : List MetaEntry
deriving DecidableEq, Repr

/-- The `country` object inside a location entry; its `code` key is read
with `.get('code', 'UNKNOWN')`, so it may be missing. -/
structure CountryRef where
  code : Option String
deriving DecidableEq, Repr

/-- One entry of a server's `locations` list; its `country` key is read
with `.get('country', {})`, so it may be missing. -/
structure LocationEntry where
  country : Option CountryRef
deriving DecidableEq, Repr

/-- A raw candidate server as consumed by `get_recommended_server`:
`hostname` and `station` are accessed with brackets, `load` with
`.get('load', 100)` (so it may be missing), `technologies` with
`.get('technologies', [])`, and `locations` with
`.get('locations', [{}])` (so the whole list may be missing, in which case
the one-element default `[{}]` is used). -/
structure Server where
  hostname : String
  station : String
  load : Option Nat
  technologies : List Technology
  locations : Option (List LocationEntry)
deriving DecidableEq, Repr

/-- `x.get('load', 100)` — the sort key used by the selection logic. -/
def loadD (s : Server) : Nat :=
  s.load.getD 100

/-- The `server.get('locations', [{}])[0].get('country', {}).get('code',
'UNKNOWN')` chain: a missing `locations` key defaults to the one-element
`[{}]`, and the later `.get`s default, but the `[0]` index on a PRESENT
empty list raises `IndexError` — modelled as `none`, which the caller's
outer `except Exception` handler turns into an overall `None` result. -/
def serverCountry (s : Server) : Option String :=
  match s.locations.getD [⟨none⟩] with
  | [] => none
  | l0 :: _ => some ((l0.country.getD ⟨none⟩).code.getD "UNKNOWN")

/-- The inner `for meta in tech.get('metadata', [])` loop: the first
metadata entry named "public_key" wins (the loop `break`s on it). -/
def firstPubKeyMeta : List MetaEntry → Option String
  | [] => none
  | m :: ms => if m.name = "public_key" then some m.value else firstPubKeyMeta ms

/-- The `for tech in server.get('technologies', [])` loop of
`get_recommended_server`: only the inner loop breaks, so each technology
with id 35 that carries a "public_key" metadata entry overwrites
`public_key`; the final value is the last such hit, `none` if there is none. -/
def extractPublicKey (s : Server) : Option String :=
  s.technologies.foldl
    (fun acc tech =>
      if tech.id = 35 then
        match firstPubKeyMeta tech.metadata with
        | some v => some v
        | none => acc
      else acc)
    none

/-- The endpoint record `get_recommended_server` returns on success. -/
structure Endpoint where
  address : String
  port : Nat
  public_key : String
  hostname : String
  country : String
deriving DecidableEq, Repr

/-- The record literal at the end of `get_recommended_server`, built from
the chosen server, its extracted public key, and the country code the
`locations` chain produced. -/
def mkEndpoint (s : Server) (pk cc : String) : Endpoint :=
  { address := s.station
    port := 51820
    public_key := pk
    hostname := s.hostname
    country := cc }

/-- Stable insertion by ascending `loadD`: an element is placed before the
first element of load not smaller than its own, so elements with equal
loads keep their original relative order — the behaviour of Python's
stable `list.sort(key=...)`. -/
def insertByLoad (s : Server) : List Server → List Server
  | [] => [s]
  | t :: ts => if loadD s ≤ loadD t then s :: t :: ts else t :: insertByLoad s ts

/-- `data.sort(key=lambda x: x.get('load', 100))` — stable sort by load. -/
def sortByLoad : List Server → List Server
  | [] => []
  | s :: ss => insertByLoad s (sortByLoad ss)

/-- Lines 129–147 applied to the one chosen candidate: extract its public
key; `if not public_key: return None` rejects by Python falsiness — a
missing key (`None`) AND a present key whose value is the empty string —
then the return-dict's country chain is evaluated, whose `IndexError` on a
present-but-empty `locations` list is swallowed by the outer handler
(overall `None`); otherwise the endpoint record is returned. -/
def endpointOfServer (server : Server) : Option Endpoint :=
  match extractPublicKey server with
  | none => none
  | some pk =>
    if pk = "" then none
    else
      match serverCountry server with
      | none => none
      | some cc => some (mkEndpoint server pk cc)

/-- The pure selection step of `get_recommended_server` applied to a fetched
pool `data`: return `None` on an empty pool, otherwise sort by load, take
`data[0]`, and run the key-check/record construction on that one
candidate. -/
def selectFromPool (data : List Server) : Option Endpoint :=
  if data.isEmpty then none
  else
    match sortByLoad data with
    | [] => none
    | server :: _ => endpointOfServer server

/-- The outcome of one HTTP attempt inside `get_recommended_server`'s retry
loop: a transport failure (`requests.RequestException`, raised by
`requests.get` or `raise_for_status`), a JSON body that is a flat list, or a
JSON object whose `servers` key holds `none` (absent) or a list. -/
inductive AttemptOutcome where
  | failure
  | flatList (l : List Server)
  | envelope (servers : Option (List Server))
deriving DecidableEq, Repr

/-- How control leaves the `for attempt in range(3)` loop: the final
re-`raise` of a `RequestException`, the `AttributeError` from calling
`.get` on a list body, or normal exit holding whatever `data` was last
assigned (possibly never assigned: `None`). -/
inductive LoopExit where
  | raised
  | attrError
  | got (data : Option (List Server))
deriving DecidableEq, Repr

/-- Result of the retry loop together with the number of `time.sleep(1)`
calls it performed. -/
structure LoopOut where
  exit : LoopExit
  sleeps : Nat
deriving DecidableEq, Repr

/-- Python truthiness of `data` after `data = json_resp.get('servers')`:
falsy when `None` or the empty list. -/
def dataTruthy : Option (List Server) → Bool
  | some (_ :: _) => true
  | _ => false

/-- The `for attempt in range(3)` body, one list element per remaining
attempt: a transport failure on the last attempt re-raises, on an earlier
attempt sleeps 1s and retries; a flat-list body raises `AttributeError`
at `json_resp.get`; an envelope assigns `data` and `break`s only when
`data` is truthy (a missing/empty `servers` list silently uses up the
attempt, with no sleep). -/
def fetchLoop : List AttemptOutcome → Option (List Server) → Nat → LoopOut
  | [], data, sleeps => ⟨.got data, sleeps⟩
  | o :: rest, data, sleeps =>
    match o with
    | .failure =>
      if rest.isEmpty then ⟨.raised, sleeps⟩
      else fetchLoop rest data (sleeps + 1)
    | .flatList _ => ⟨.attrError, sleeps⟩
    | .envelope s =>
      if dataTruthy s then ⟨.got s, sleeps⟩ else fetchLoop rest s sleeps

/-- The three attempts `range(3)` grants the loop, with `data = None`
initially and no sleeps yet. -/
def fetchLoop3 (a0 a1 a2 : AttemptOutcome) : LoopOut :=
  fetchLoop [a0, a1, a2] none 0

/-- `NordVPNClient.get_recommended_server`, given the outcome each of the
three HTTP attempts would produce. The whole body sits in a
`try ... except Exception: return None`, so both the re-raised transport
failure and the flat-list `AttributeError` end as `None`; otherwise the
fetched pool goes through the sort/extract selection step. -/
def get_recommended_server (a0 a1 a2 : AttemptOutcome) : Option Endpoint :=
  match (fetchLoop3 a0 a1 a2).exit with
  | .raised => none
  | .attrError => none
  | .got data =>
    match data with
    | none => none
    | some l => selectFromPool l

/-- Number of 1-second sleeps a call to `get_recommended_server` performs,
given the three attempts' outcomes. -/
def get_recommended_server_sleeps (a0 a1 a2 : AttemptOutcome) : Nat :=
  (fetchLoop3 a0 a1 a2).sleeps

/-- One entry of the builder's `clients` list (`{id, email, flow}`). -/
structure Client where
  id : String
  email : String
  flow : String
deriving DecidableEq, Repr

/-- A routing rule dict. Every rule the code builds has `"type": "field"`
(a constant, omitted here); `user`, `domain` and `ip` are optional keys,
present only when the building method sets them. -/
structure RoutingRule where
  user : Option (List String)
  domain : Option (List String)
  ip : Option (List String)
  outboundTag : String
deriving DecidableEq, Repr

/-- The per-protocol payload of an outbound dict: the `protocol` string
together with its `settings` (absent for blackhole/freedom). WireGuard's
peer endpoint is the f-string `f"{server_address}:{server_port}"`. -/
inductive OutboundSettings where
  | blackhole
  | freedom
  | wireguard (secretKey : String) (address : List String)
      (peerPublicKey : String) (peerEndpoint : String)
  | socks (address : String) (port : Nat)
  | shadowsocks (address : String) (port : Nat) (method : String) (password : String)
deriving DecidableEq, Repr

/-- One entry of the builder's `outbounds` list: its `tag` plus payload. -/
structure Outbound where
  tag : String
  settings : OutboundSettings
deriving DecidableEq, Repr

/-- Mutable state of `XrayConfigBuilder`. -/
structure XrayConfigBuilder where
  port : Nat
  decryption_key : String
  clients : List Client
  outbounds : List Outbound
  routing_rules : List RoutingRule
deriving DecidableEq, Repr

namespace XrayConfigBuilder

/-- `XrayConfigBuilder.__init__`: empty client list, the two default
outbounds (blackhole tagged "blocked", freedom tagged "direct") and the
default rule routing `geosite:cn` to "blocked". -/
def init (port : Nat) (decryption_key : String) : XrayConfigBuilder :=
  { port := port
    decryption_key := decryption_key
    clients := []
    outbounds := [⟨"blocked", .blackhole⟩, ⟨"direct", .freedom⟩]
    routing_rules := [⟨none, some ["geosite:cn"], none, "blocked"⟩] }

/-- `add_client`: unconditionally appends `{id, email, flow}`; the fresh
`uuid.uuid4()` is passed in as `client_id`. (Python default
`flow="xtls-rprx-vision"` is passed explicitly by callers here.) -/
def add_client (b : XrayConfigBuilder) (client_id email flow : String) :
    XrayConfigBuilder :=
  { b with clients := b.clients ++ [⟨client_id, email, flow⟩] }

/-- `add_routing_rule`: appends a `{user: [email], outboundTag}` rule. -/
def add_routing_rule (b : XrayConfigBuilder) (user_email outbound_tag : String) :
    XrayConfigBuilder :=
  { b with routing_rules :=
      b.routing_rules ++ [⟨some [user_email], none, none, outbound_tag⟩] }

/-- `add_blocking_rule`: builds a `{user: [email], outboundTag: "blocked"}`
rule, adds the `ip`/`domain` keys when the corresponding arguments are
truthy, and `insert(0, rule)`s it at the FRONT of the rule list. -/
def add_blocking_rule (b : XrayConfigBuilder) (user_email : String)
    (ip_list domain_list : Option (List String)) : XrayConfigBuilder :=
  { b with routing_rules :=
      ⟨some [user_email], domain_list, ip_list, "blocked"⟩ :: b.routing_rules }

/-- `add_wireguard_outbound`: unconditionally appends a wireguard outbound.
(Python default `local_address="10.5.0.2/32"` is passed explicitly.) -/
def add_wireguard_outbound (b : XrayConfigBuilder)
    (tag private_key server_address : String) (server_port : Nat)
    (public_key local_address : String) : XrayConfigBuilder :=
  { b with outbounds := b.outbounds ++
      [⟨tag, .wireguard private_key [local_address] public_key
          (server_address ++ ":" ++ toString server_port)⟩] }

/-- `add_socks_outbound`: unconditionally appends a socks outbound. -/
def add_socks_outbound (b : XrayConfigBuilder) (tag server_address : String)
    (port : Nat) : XrayConfigBuilder :=
  { b with outbounds := b.outbounds ++ [⟨tag, .socks server_address port⟩] }

/-- `add_shadowsocks_outbound`: unconditionally appends a shadowsocks
outbound. -/
def add_shadowsocks_outbound (b : XrayConfigBuilder)
    (tag server_address : String) (port : Nat) (method password : String) :
    XrayConfigBuilder :=
  { b with outbounds := b.outbounds ++
      [⟨tag, .shadowsocks server_address port method password⟩] }

end XrayConfigBuilder

/-- The single inbound listener `build` emits. -/
structure Inbound where
  port : Nat
  listen : String
  protocol : String
  clients : List Client
  decryption : String
  network : String
  xhttpPath : String
deriving DecidableEq, Repr

/-- The document `XrayConfigBuilder.build` returns. -/
structure XrayConfig where
  loglevel : String
  inbounds : List Inbound
  outbounds : List Outbound
  domainStrategy : String
  rules : List RoutingRule
deriving DecidableEq, Repr

/-- `XrayConfigBuilder.build`: assembles the document literal from the
builder's current state, verbatim — it contains no checks. -/
def XrayConfigBuilder.build (b : XrayConfigBuilder) : XrayConfig :=
  { loglevel := "warning"
    inbounds := [⟨b.port, "0.0.0.0", "vless", b.clients, b.decryption_key,
        "xhttp", "/xray"⟩]
    outbounds := b.outbounds
    domainStrategy := "IPIfNonMatch"
    rules := b.routing_rules }

/-- One service dict of the compose file. Keys a service never sets in the
Python dict (e.g. `volumes` for gluetun, `environment` for xray) are
modelled as the empty list; `depends_on` is set on the xray service only
when `xray_depends_on` is non-empty, so the empty list likewise stands for
the absent key. -/
structure ComposeService where
  image : String
  container_name : String
  cap_add : List String
  environment : List String
  volumes : List String
  ports : List String
  networks : List String
  restart : String
  depends_on : List String
deriving DecidableEq, Repr

/-- The `networks` section chosen in `ComposeBuilder.__init__`: an
externally-named network when a name is supplied, a private bridge
otherwise. -/
inductive ComposeNetworks where
  | externalNet (name : String)
  | bridge
deriving DecidableEq, Repr

/-- Mutable state of `ComposeBuilder`: the (insertion-ordered) `services`
dict as an association list, the network choice, and the accumulating
`xray_depends_on` list. -/
structure ComposeBuilder where
  services : List (String × ComposeService)
  networks : ComposeNetworks
  xray_depends_on : List String
deriving DecidableEq, Repr

namespace ComposeBuilder

/-- `ComposeBuilder.__init__`. -/
def init (network_name : Option String) : ComposeBuilder :=
  { services := []
    networks := match network_name with
      | some n => .externalNet n
      | none => .bridge
    xray_depends_on := [] }

/-- The `env_vars` list `add_gluetun_service` assembles: the four fixed
entries, then `SERVER_HOSTNAME` if a hostname is given, else
`SERVER_COUNTRIES` if a country is given, then — when a shadowsocks
password is given — the three shadowsocks entries. -/
def gluetunEnvVars (nord_private_key : String)
    (server_hostname country ss_password : Option String) : List String :=
  ["VPN_SERVICE_PROVIDER=nordvpn",
   "VPN_TYPE=wireguard",
   "DNS_ADDRESS=1.1.1.1",
   "WIREGUARD_PRIVATE_KEY=" ++ nord_private_key]
  ++ (match server_hostname, country with
      | some h, _ => ["SERVER_HOSTNAME=" ++ h]
      | none, some c => ["SERVER_COUNTRIES=" ++ c]
      | none, none => [])
  ++ (match ss_password with
      | some p => ["SHADOWSOCKS=on",
                   "SHADOWSOCKS_PASSWORD=" ++ p,
                   "SHADOWSOCKS_METHOD=chacha20-ietf-poly1305"]
      | none => [])

/-- `add_gluetun_service`: stores the gluetun service dict under `name` and
records `name` in `xray_depends_on`. -/
def add_gluetun_service (b : ComposeBuilder) (name nord_private_key : String)
    (server_hostname country ss_password : Option String) : ComposeBuilder :=
  { b with
    services := b.services ++
      [(name,
        { image := "qmcgaw/gluetun"
          container_name := name
          cap_add := ["NET_ADMIN"]
          environment :=
            gluetunEnvVars nord_private_key server_hostname country ss_password
          volumes := []
          ports := []
          networks := ["xray_net"]
          restart := "always"
          depends_on := [] })]
    xray_depends_on := b.xray_depends_on ++ [name] }

/-- `add_xray_service`: stores the main proxy service under key "xray",
with `ports: [f"{port}:{port}"]` and `depends_on` equal to the accumulated
tunnel-service names. -/
def add_xray_service (b : ComposeBuilder) (port : Nat) : ComposeBuilder :=
  { b with
    services := b.services ++
      [("xray",
        { image := "teddysun/xray"
          container_name := "xray"
          cap_add := []
          environment := []
          volumes := ["./config.json:/etc/xray/config.json"]
          ports := [toString port ++ ":" ++ toString port]
          networks := ["xray_net"]
          restart := "always"
          depends_on := b.xray_depends_on })] }

end ComposeBuilder

/-- The document `ComposeBuilder.build` returns. -/
structure ComposeConfig where
  version : String
  services : List (String × ComposeService)
  networks : ComposeNetworks
deriving DecidableEq, Repr

/-- `ComposeBuilder.build`. -/
def ComposeBuilder.build (b : ComposeBuilder) : ComposeConfig :=
  { version := "3", services := b.services, networks := b.networks }

/-- Python's `str.upper()` on the ASCII country codes the program handles:
uppercase each character. (Defined structurally on the character list so
that concrete instances compute inside the kernel.) -/
def pyUpper (s : String) : String :=
  ⟨s.data.map Char.toUpper⟩

/-- Python's `str.lower()` on the ASCII country codes the program handles:
lowercase each character. -/
def pyLower (s : String) : String :=
  ⟨s.data.map Char.toLower⟩

/-- One country record from the NordVPN country catalog (`id`, `code`,
`name` are the fields `main` reads). -/
structure Country where
  id : Nat
  code : String
  name : String
deriving DecidableEq, Repr

/-- The `Settings` dataclass, after `Settings.load` has resolved the
environment (so `nord_countries` is already the upper-cased code list). -/
structure Settings where
  nord_private_key : String
  nord_countries : List String
  xray_port : Nat
  enable_direct : Bool
  enable_gluetun : Bool
  xray_domain : String
  xray_network : Option String
deriving DecidableEq, Repr

/-- `target_countries = [c for c in all_countries if c['code'].upper() in
settings.nord_countries]`. -/
def targetCountries (s : Settings) (all_countries : List Country) : List Country :=
  all_countries.filter (fun c => s.nord_countries.contains (pyUpper c.code))

/-- The orchestrator's state while `main` drives the two builders; `nextId`
indexes the next `uuid.uuid4()` draw from the input stream. -/
structure MainState where
  xb : XrayConfigBuilder
  cb : ComposeBuilder
  nextId : Nat
deriving Repr

/-- One iteration of `main`'s per-country loop. In gluetun mode no endpoint
is fetched; otherwise a failed `get_recommended_server` lookup (`None`)
skips the country (`continue`). A processed country gets a client
(`{code}.user@example.com`), an outbound tagged `nordvpn-{code}`, and a
routing rule binding the one to the other; the gluetun branch additionally
registers the sidecar service, with a fresh uuid as shadowsocks password. -/
def processCountry (s : Settings) (fetch : Nat → Option Endpoint)
    (uuid : Nat → String) (st : MainState) (c : Country) : MainState :=
  let email := pyLower c.code ++ ".user@example.com"
  let tag := "nordvpn-" ++ pyLower c.code
  if s.enable_gluetun then
    let xb := st.xb.add_client (uuid st.nextId) email "xtls-rprx-vision"
    let service_name := "gluetun-" ++ pyLower c.code
    let ss_password := uuid (st.nextId + 1)
    let cb := st.cb.add_gluetun_service service_name s.nord_private_key
        none (some c.name) (some ss_password)
    let xb := xb.add_shadowsocks_outbound tag service_name 8388
        "chacha20-ietf-poly1305" ss_password
    let xb := xb.add_routing_rule email tag
    ⟨xb, cb, st.nextId + 2⟩
  else
    match fetch c.id with
    | none => st
    | some server =>
      let xb := st.xb.add_client (uuid st.nextId) email "xtls-rprx-vision"
      let xb := xb.add_wireguard_outbound tag s.nord_private_key
          server.address server.port server.public_key "10.5.0.2/32"
      let xb := xb.add_routing_rule email tag
      ⟨xb, st.cb, st.nextId + 1⟩

/-- Step 6 of `main`: when direct egress is enabled, add the direct client,
then its front-inserted blocking rule on `geoip:private`/`geosite:private`,
then its appended allow rule to "direct". -/
def directAccessStep (s : Settings) (uuid : Nat → String) (st : MainState) :
    MainState :=
  if s.enable_direct then
    let email := "direct.user@example.com"
    let xb := st.xb.add_client (uuid st.nextId) email "xtls-rprx-vision"
    let xb := xb.add_blocking_rule email (some ["geoip:private"])
        (some ["geosite:private"])
    let xb := xb.add_routing_rule email "direct"
    ⟨xb, st.cb, st.nextId + 1⟩
  else st

/-- `if not dec_key: dec_key, enc_key = "none", "none"` — `generate_keys`
either fails (`(None, None)`) or yields two keys; a falsy (empty) first key
also triggers the fallback. -/
def resolveKeys : Option (String × String) → String × String
  | none => ("none", "none")
  | some (d, e) => if d = "" then ("none", "none") else (d, e)

/-- Steps 3–7 of `main` as a pure function of its inputs: the resolved
settings, the country catalog, the per-country endpoint lookup, the uuid
stream and the key-generation result. Produces the pair of documents
written to `config.json` and the compose file. (`main` exits before this
point when `target_countries` is empty; `runMain` mirrors that guard.) -/
def finalConfigs (s : Settings) (all_countries : List Country)
    (fetch : Nat → Option Endpoint) (uuid : Nat → String)
    (genKeys : Option (String × String)) : XrayConfig × ComposeConfig :=
  let dec_key := (resolveKeys genKeys).1
  let st0 : MainState :=
    ⟨XrayConfigBuilder.init s.xray_port dec_key, ComposeBuilder.init s.xray_network, 0⟩
  let tcs := targetCountries s all_countries
  let st := tcs.foldl (processCountry s fetch uuid) st0
  let st := directAccessStep s uuid st
  let cb := st.cb.add_xray_service s.xray_port
  (st.xb.build, cb.build)

/-- `main` (steps 3–7): `sys.exit(1)` with no artifacts when the country
filter matches nothing, else the pair of built documents. -/
def runMain (s : Settings) (all_countries : List Country)
    (fetch : Nat → Option Endpoint) (uuid : Nat → String)
    (genKeys : Option (String × String)) : Option (XrayConfig × ComposeConfig) :=
  if (targetCountries s all_countries).isEmpty then none
  else some (finalConfigs s all_countries fetch uuid genKeys)

/-- Whether a country is processed (rather than skipped) by the loop:
always in gluetun mode, otherwise exactly when the endpoint lookup
succeeds. -/
def isProcessed (s : Settings) (fetch : Nat → Option Endpoint) (c : Country) :
    Bool :=
  s.enable_gluetun || (fetch c.id).isSome

/-- The routing rule the loop appends for a processed country. -/
def regionRule (c : Country) : RoutingRule :=
  ⟨some [pyLower c.code ++ ".user@example.com"], none, none,
    "nordvpn-" ++ pyLower c.code⟩

/-- The per-region allow rules the loop appends, in country order. -/
def regionRules (s : Settings) (fetch : Nat → Option Endpoint)
    (cs : List Country) : List RoutingRule :=
  cs.filterMap (fun c => if isProcessed s fetch c then some (regionRule c) else none)

/-- The default `geosite:cn → blocked` rule installed by
`XrayConfigBuilder.__init__`. -/
def cnBlockRule : RoutingRule := ⟨none, some ["geosite:cn"], none, "blocked"⟩

/-- The front-inserted blocking rule of the direct-access step. -/
def directBlockRule : RoutingRule :=
  ⟨some ["direct.user@example.com"], some ["geosite:private"],
    some ["geoip:private"], "blocked"⟩

/-- The appended allow rule of the direct-access step. -/
def directAllowRule : RoutingRule :=
  ⟨some ["direct.user@example.com"], none, none, "direct"⟩

/-- Number of countries the loop processes (gluetun mode processes all,
wireguard mode those whose endpoint lookup succeeds). -/
def processedCount (s : Settings) (fetch : Nat → Option Endpoint)
    (cs : List Country) : Nat :=
  cs.countP (isProcessed s fetch)

/-- The first element of a list attaining the minimal `loadD` — the
specification of what `data.sort(key=load)[0]` picks (stable sort, so the
earliest among ties). -/
def firstMinByLoad : List Server → Option Server
  | [] => none
  | s :: rest =>
    match firstMinByLoad rest with
    | none => some s
    | some t => if loadD s ≤ loadD t then some s else some t

/-- A candidate with the lowest load (10) of its pool but no WireGuard
public-key metadata. -/
def srvLowNoKey : Server :=
  ⟨"h0", "9.9.9.9", some 10, [⟨35, []⟩], none⟩

/-- A candidate with a higher load (20) that does expose a WireGuard
public key. -/
def srvHighKey : Server :=
  ⟨"h1", "1.2.3.4", some 20, [⟨35, [⟨"public_key", "PK"⟩]⟩],
    some [⟨some ⟨some "US"⟩⟩]⟩

/-- A builder whose only added rule references the never-declared tag
"ghost". -/
def danglingBuilder : XrayConfigBuilder :=
  (XrayConfigBuilder.init 10000 "none").add_routing_rule
    "x.user@example.com" "ghost"

/-- Two `add_wireguard_outbound` calls with the same tag "dup". -/
def dupTagBuilder : XrayConfigBuilder :=
  ((XrayConfigBuilder.init 10000 "none").add_wireguard_outbound
      "dup" "K" "1.1.1.1" 51820 "PK1" "10.5.0.2/32").add_wireguard_outbound
      "dup" "K" "2.2.2.2" 51820 "PK2" "10.5.0.2/32"

/-- Two `add_client` calls with the same email label. -/
def dupEmailBuilder : XrayConfigBuilder :=
  ((XrayConfigBuilder.init 10000 "none").add_client
      "id1" "a.user@example.com" "xtls-rprx-vision").add_client
      "id2" "a.user@example.com" "xtls-rprx-vision"

/-- Concrete endpoint data for scenario runs. -/
def epUS : Endpoint := ⟨"1.1.1.1", 51820, "PKUS", "us1", "US"⟩

/-- Concrete endpoint data for scenario runs. -/
def epJP : Endpoint := ⟨"2.2.2.2", 51820, "PKJP", "jp1", "JP"⟩

/-- A two-country catalog (US id 228, JP id 99). -/
def catAB : List Country :=
  [⟨228, "US", "United States"⟩, ⟨99, "JP", "Japan"⟩]

/-- A lookup under which both catalog countries have valid endpoints. -/
def fetchAB : Nat → Option Endpoint := fun n =>
  if n = 228 then some epUS else if n = 99 then some epJP else none

/-- A deterministic stand-in for the `uuid.uuid4()` stream. -/
def uuStream : Nat → String := fun n => "uuid-" ++ toString n

/-- Scenario A settings: regions US and JP, direct egress off, wireguard
mode, port 10000. -/
def setA : Settings :=
  ⟨"PRIV", ["US", "JP"], 10000, false, false, "<YOUR_DOMAIN>", none⟩

/-- Gluetun-mode settings for the sidecar-consistency witness. -/
def setG : Settings :=
  ⟨"PRIV", ["US"], 10000, false, true, "<YOUR_DOMAIN>", none⟩

/-- A concrete orchestrator state (fresh builders) for witnesses. -/
def stG0 : MainState :=
  ⟨XrayConfigBuilder.init 10000 "none", ComposeBuilder.init none, 0⟩

/-- The US country record of `catAB`. -/
def countryUS : Country := ⟨228, "US", "United States"⟩

/-! ### Helper lemmas about the selection step -/

theorem firstMinByLoad_isSome (s : Server) (rest : List Server) :
    (firstMinByLoad (s :: rest)).isSome := by
  unfold firstMinByLoad
  cases h : firstMinByLoad rest with
  | none => simp
  | some t => by_cases hle : loadD s ≤ loadD t <;> simp [hle]

theorem firstMinByLoad_none (l : List Server) (h : firstMinByLoad l = none) :
    l = [] := by
  cases l with
  | nil => rfl
  | cons s rest =>
    have := firstMinByLoad_isSome s rest
    rw [h] at this
    simp at this

theorem sortByLoad_head (l : List Server) :
    (sortByLoad l).head? = firstMinByLoad l := by
  induction l with
  | nil => rfl
  | cons s rest ih =>
    show (insertByLoad s (sortByLoad rest)).head? = _
    cases hr : sortByLoad rest with
    | nil =>
      rw [hr] at ih
      simp [insertByLoad, firstMinByLoad, ← ih]
    | cons t ts =>
      rw [hr] at ih
      simp only [List.head?] at ih
      unfold insertByLoad firstMinByLoad
      rw [← ih]
      by_cases hle : loadD s ≤ loadD t <;> simp [hle]

theorem firstMinByLoad_spec (l : List Server) (m : Server)
    (h : firstMinByLoad l = some m) :
    ∃ pre post, l = pre ++ m :: post ∧ (∀ t ∈ pre, loadD m < loadD t) ∧
      ∀ t ∈ l, loadD m ≤ loadD t := by
  induction l generalizing m with
  | nil => simp [firstMinByLoad] at h
  | cons s rest ih =>
    unfold firstMinByLoad at h
    cases hr : firstMinByLoad rest with
    | none =>
      rw [hr] at h
      simp only [Option.some.injEq] at h
      subst h
      have hrest := firstMinByLoad_none rest hr
      subst hrest
      exact ⟨[], [], rfl, by simp, by simp⟩
    | some t =>
      rw [hr] at h
      dsimp only at h
      obtain ⟨pre, post, hsplit, hpre, hmin⟩ := ih t hr
      by_cases hle : loadD s ≤ loadD t
      · rw [if_pos hle] at h
        obtain rfl : s = m := by simpa using h
        refine ⟨[], rest, rfl, by simp, ?_⟩
        intro u hu
        rcases List.mem_cons.mp hu with rfl | hu
        · exact le_rfl
        · exact le_trans hle (hmin u hu)
      · rw [if_neg hle] at h
        obtain rfl : t = m := by simpa using h
        refine ⟨s :: pre, post, by simp [hsplit], ?_, ?_⟩
        · intro u hu
          rcases List.mem_cons.mp hu with rfl | hu
          · exact lt_of_not_le hle
          · exact hpre u hu
        · intro u hu
          rcases List.mem_cons.mp hu with rfl | hu
          · exact le_of_lt (lt_of_not_le hle)
          · exact hmin u hu

theorem selectFromPool_eq_of_head (l : List Server) (m : Server) (ts : List Server)
    (h : sortByLoad l = m :: ts) :
    selectFromPool l = endpointOfServer m := by
  have hne : l ≠ [] := by
    intro hl
    rw [hl] at h
    simp [sortByLoad] at h
  unfold selectFromPool
  rw [if_neg (by simpa using hne), h]

theorem selectFromPool_spec (s0 : Server) (rest : List Server) :
    ∃ m pre post, s0 :: rest = pre ++ m :: post ∧
      (∀ t ∈ pre, loadD m < loadD t) ∧
      (∀ t ∈ s0 :: rest, loadD m ≤ loadD t) ∧
      selectFromPool (s0 :: rest) = endpointOfServer m := by
  cases hm : firstMinByLoad (s0 :: rest) with
  | none =>
    have := firstMinByLoad_isSome s0 rest
    rw [hm] at this
    simp at this
  | some m =>
    obtain ⟨pre, post, hsplit, hpre, hmin⟩ := firstMinByLoad_spec _ m hm
    have hhead : (sortByLoad (s0 :: rest)).head? = some m := by
      rw [sortByLoad_head, hm]
    obtain ⟨ts, hts⟩ : ∃ ts, sortByLoad (s0 :: rest) = m :: ts := by
      cases hsort : sortByLoad (s0 :: rest) with
      | nil => rw [hsort] at hhead; simp at hhead
      | cons a as =>
        rw [hsort] at hhead
        simp only [List.head?, Option.some.injEq] at hhead
        exact ⟨as, by rw [hhead]⟩
    exact ⟨m, pre, post, hsplit, hpre, hmin,
      selectFromPool_eq_of_head _ m ts hts⟩

/-! ### Helper lemmas about the per-country loop -/

theorem regionRules_cons (s : Settings) (fetch : Nat → Option Endpoint)
    (c : Country) (cs : List Country) :
    regionRules s fetch (c :: cs) =
      (if isProcessed s fetch c then [regionRule c] else []) ++
        regionRules s fetch cs := by
  unfold regionRules
  rw [List.filterMap_cons]
  by_cases h : isProcessed s fetch c <;> simp [h]

theorem regionRules_length (s : Settings) (fetch : Nat → Option Endpoint)
    (cs : List Country) :
    (regionRules s fetch cs).length = processedCount s fetch cs := by
  induction cs with
  | nil => rfl
  | cons c cs ih =>
    rw [regionRules_cons]
    unfold processedCount at ih ⊢
    rw [List.countP_cons]
    by_cases h : isProcessed s fetch c <;> simp [h, ih]

theorem processCountry_rules (s : Settings) (fetch : Nat → Option Endpoint)
    (uuid : Nat → String) (st : MainState) (c : Country) :
    (processCountry s fetch uuid st c).xb.routing_rules =
      st.xb.routing_rules ++
        (if isProcessed s fetch c then [regionRule c] else []) := by
  unfold processCountry isProcessed regionRule
  by_cases hg : s.enable_gluetun
  · simp [hg, XrayConfigBuilder.add_client, XrayConfigBuilder.add_routing_rule,
      XrayConfigBuilder.add_shadowsocks_outbound]
  · cases hf : fetch c.id with
    | none => simp [hg, hf]
    | some server =>
      simp [hg, hf, XrayConfigBuilder.add_client,
        XrayConfigBuilder.add_routing_rule, XrayConfigBuilder.add_wireguard_outbound]

theorem processCountry_outbounds (s : Settings) (fetch : Nat → Option Endpoint)
    (uuid : Nat → String) (st : MainState) (c : Country) :
    ∃ tl, (processCountry s fetch uuid st c).xb.outbounds =
        st.xb.outbounds ++ tl ∧
      tl.length = (if isProcessed s fetch c then 1 else 0) := by
  unfold processCountry isProcessed
  by_cases hg : s.enable_gluetun
  · refine ⟨[⟨"nordvpn-" ++ pyLower c.code,
      .shadowsocks ("gluetun-" ++ pyLower c.code) 8388 "chacha20-ietf-poly1305"
        (uuid (st.nextId + 1))⟩], ?_, ?_⟩ <;>
      simp [hg, XrayConfigBuilder.add_client, XrayConfigBuilder.add_routing_rule,
        XrayConfigBuilder.add_shadowsocks_outbound]
  · cases hf : fetch c.id with
    | none => exact ⟨[], by simp [hg, hf], by simp [hg, hf]⟩
    | some server =>
      refine ⟨[⟨"nordvpn-" ++ pyLower c.code,
        .wireguard s.nord_private_key ["10.5.0.2/32"] server.public_key
          (server.address ++ ":" ++ toString server.port)⟩], ?_, ?_⟩ <;>
        simp [hg, hf, XrayConfigBuilder.add_client,
          XrayConfigBuilder.add_routing_rule, XrayConfigBuilder.add_wireguard_outbound]

theorem processCountry_clients (s : Settings) (fetch : Nat → Option Endpoint)
    (uuid : Nat → String) (st : MainState) (c : Country) :
    ∃ tl, (processCountry s fetch uuid st c).xb.clients =
        st.xb.clients ++ tl ∧
      tl.length = (if isProcessed s fetch c then 1 else 0) := by
  unfold processCountry isProcessed
  by_cases hg : s.enable_gluetun
  · refine ⟨[⟨uuid st.nextId, pyLower c.code ++ ".user@example.com",
      "xtls-rprx-vision"⟩], ?_, ?_⟩ <;>
      simp [hg, XrayConfigBuilder.add_client, XrayConfigBuilder.add_routing_rule,
        XrayConfigBuilder.add_shadowsocks_outbound]
  · cases hf : fetch c.id with
    | none => exact ⟨[], by simp [hg, hf], by simp [hg, hf]⟩
    | some server =>
      refine ⟨[⟨uuid st.nextId, pyLower c.code ++ ".user@example.com",
        "xtls-rprx-vision"⟩], ?_, ?_⟩ <;>
        simp [hg, hf, XrayConfigBuilder.add_client,
          XrayConfigBuilder.add_routing_rule, XrayConfigBuilder.add_wireguard_outbound]

theorem loop_rules (s : Settings) (fetch : Nat → Option Endpoint)
    (uuid : Nat → String) (cs : List Country) (st : MainState) :
    (cs.foldl (processCountry s fetch uuid) st).xb.routing_rules =
      st.xb.routing_rules ++ regionRules s fetch cs := by
  induction cs generalizing st with
  | nil => simp [regionRules]
  | cons c cs ih =>
    rw [List.foldl_cons, ih, processCountry_rules, regionRules_cons,
      List.append_assoc]

theorem loop_outbounds (s : Settings) (fetch : Nat → Option Endpoint)
    (uuid : Nat → String) (cs : List Country) (st : MainState) :
    ∃ tl, (cs.foldl (processCountry s fetch uuid) st).xb.outbounds =
        st.xb.outbounds ++ tl ∧
      tl.length = processedCount s fetch cs := by
  induction cs generalizing st with
  | nil => exact ⟨[], by simp, by simp [processedCount]⟩
  | cons c cs ih =>
    rw [List.foldl_cons]
    obtain ⟨tl1, h1, hl1⟩ := processCountry_outbounds s fetch uuid st c
    obtain ⟨tl2, h2, hl2⟩ := ih (processCountry s fetch uuid st c)
    refine ⟨tl1 ++ tl2, ?_, ?_⟩
    · rw [h2, h1, List.append_assoc]
    · unfold processedCount
      rw [List.countP_cons, List.length_append, hl1, hl2]
      by_cases h : isProcessed s fetch c <;> simp [h, processedCount, Nat.add_comm]

theorem loop_clients (s : Settings) (fetch : Nat → Option Endpoint)
    (uuid : Nat → String) (cs : List Country) (st : MainState) :
    ∃ tl, (cs.foldl (processCountry s fetch uuid) st).xb.clients =
        st.xb.clients ++ tl ∧
      tl.length = processedCount s fetch cs := by
  induction cs generalizing st with
  | nil => exact ⟨[], by simp, by simp [processedCount]⟩
  | cons c cs ih =>
    rw [List.foldl_cons]
    obtain ⟨tl1, h1, hl1⟩ := processCountry_clients s fetch uuid st c
    obtain ⟨tl2, h2, hl2⟩ := ih (processCountry s fetch uuid st c)
    refine ⟨tl1 ++ tl2, ?_, ?_⟩
    · rw [h2, h1, List.append_assoc]
    · unfold processedCount
      rw [List.countP_cons, List.length_append, hl1, hl2]
      by_cases h : isProcessed s fetch c <;> simp [h, processedCount, Nat.add_comm]

theorem loop_port (s : Settings) (fetch : Nat → Option Endpoint)
    (uuid : Nat → String) (cs : List Country) (st : MainState) :
    (cs.foldl (processCountry s fetch uuid) st).xb.port = st.xb.port ∧
      (cs.foldl (processCountry s fetch uuid) st).xb.decryption_key =
        st.xb.decryption_key := by
  induction cs generalizing st with
  | nil => exact ⟨rfl, rfl⟩
  | cons c cs ih =>
    rw [List.foldl_cons]
    refine (ih (processCountry s fetch uuid st c)).imp (fun h => ?_) (fun h => ?_) <;>
      rw [h] <;>
      unfold processCountry <;>
      by_cases hg : s.enable_gluetun <;>
      cases hf : fetch c.id <;>
      simp [hg, hf, XrayConfigBuilder.add_client, XrayConfigBuilder.add_routing_rule,
        XrayConfigBuilder.add_shadowsocks_outbound, XrayConfigBuilder.add_wireguard_outbound]

theorem directAccessStep_build (s : Settings) (uuid : Nat → String)
    (st : MainState) :
    (directAccessStep s uuid st).xb.build =
      { loglevel := "warning"
        inbounds := [⟨st.xb.port, "0.0.0.0", "vless",
          st.xb.clients ++
            (if s.enable_direct then
              [⟨uuid st.nextId, "direct.user@example.com", "xtls-rprx-vision"⟩]
            else []),
          st.xb.decryption_key, "xhttp", "/xray"⟩]
        outbounds := st.xb.outbounds
        domainStrategy := "IPIfNonMatch"
        rules := (if s.enable_direct then
            directBlockRule :: (st.xb.routing_rules ++ [directAllowRule])
          else st.xb.routing_rules) } := by
  unfold directAccessStep XrayConfigBuilder.build
  by_cases hd : s.enable_direct <;>
    simp [hd, XrayConfigBuilder.add_client, XrayConfigBuilder.add_blocking_rule,
      XrayConfigBuilder.add_routing_rule, directBlockRule, directAllowRule]

theorem finalConfigs_shape (s : Settings) (all_countries : List Country)
    (fetch : Nat → Option Endpoint) (uuid : Nat → String)
    (genKeys : Option (String × String)) :
    ∃ cl tl,
      (finalConfigs s all_countries fetch uuid genKeys).1 =
        { loglevel := "warning"
          inbounds := [⟨s.xray_port, "0.0.0.0", "vless", cl,
            (resolveKeys genKeys).1, "xhttp", "/xray"⟩]
          outbounds := [⟨"blocked", .blackhole⟩, ⟨"direct", .freedom⟩] ++ tl
          domainStrategy := "IPIfNonMatch"
          rules := (if s.enable_direct then [directBlockRule] else []) ++
            [cnBlockRule] ++ regionRules s fetch (targetCountries s all_countries) ++
            (if s.enable_direct then [directAllowRule] else []) } ∧
      cl.length = processedCount s fetch (targetCountries s all_countries) +
        (if s.enable_direct then 1 else 0) ∧
      tl.length = processedCount s fetch (targetCountries s all_countries) := by
  obtain ⟨tl, htl, htllen⟩ := loop_outbounds s fetch uuid
    (targetCountries s all_countries)
    ⟨XrayConfigBuilder.init s.xray_port (resolveKeys genKeys).1,
      ComposeBuilder.init s.xray_network, 0⟩
  obtain ⟨cl0, hcl, hcllen⟩ := loop_clients s fetch uuid
    (targetCountries s all_countries)
    ⟨XrayConfigBuilder.init s.xray_port (resolveKeys genKeys).1,
      ComposeBuilder.init s.xray_network, 0⟩
  have hrules := loop_rules s fetch uuid (targetCountries s all_countries)
    ⟨XrayConfigBuilder.init s.xray_port (resolveKeys genKeys).1,
      ComposeBuilder.init s.xray_network, 0⟩
  have hport := loop_port s fetch uuid (targetCountries s all_countries)
    ⟨XrayConfigBuilder.init s.xray_port (resolveKeys genKeys).1,
      ComposeBuilder.init s.xray_network, 0⟩
  have hfc : (finalConfigs s all_countries fetch uuid genKeys).1 =
      (directAccessStep s uuid
        ((targetCountries s all_countries).foldl (processCountry s fetch uuid)
          ⟨XrayConfigBuilder.init s.xray_port (resolveKeys genKeys).1,
            ComposeBuilder.init s.xray_network, 0⟩)).xb.build := rfl
  refine ⟨((targetCountries s all_countries).foldl (processCountry s fetch uuid)
      ⟨XrayConfigBuilder.init s.xray_port (resolveKeys genKeys).1,
        ComposeBuilder.init s.xray_network, 0⟩).xb.clients ++
      (if s.enable_direct then
        [⟨uuid ((targetCountries s all_countries).foldl (processCountry s fetch uuid)
            ⟨XrayConfigBuilder.init s.xray_port (resolveKeys genKeys).1,
              ComposeBuilder.init s.xray_network, 0⟩).nextId,
          "direct.user@example.com", "xtls-rprx-vision"⟩]
      else []), tl, ?_, ?_, htllen⟩
  · rw [hfc, directAccessStep_build]
    rw [htl, hrules, hport.1, hport.2]
    simp only [XrayConfigBuilder.init]
    by_cases hd : s.enable_direct <;> simp [hd, cnBlockRule]
  · rw [hcl]
    simp only [XrayConfigBuilder.init, List.nil_append, List.length_append,
      hcllen]
    by_cases hd : s.enable_direct <;> simp [hd]

/-! ### Claims -/

/-- C1 counterexample: in the pool `[srvLowNoKey, srvHighKey]` a candidate
(`srvHighKey`) supports the WireGuard capability, yet the selection step
returns `none` — not the minimum-load capability-supporting candidate —
because the capability check is applied only to the lowest-load candidate
of the unfiltered pool, which lacks the key. -/
theorem C1_filter_before_ranking_counterexample :
    ((extractPublicKey srvHighKey).isSome ∧
      srvHighKey ∈ [srvLowNoKey, srvHighKey]) ∧
    selectFromPool [srvLowNoKey, srvHighKey] = none := by decide

/-- C1 (amended): the selection step ranks the WHOLE pool by ascending load
(stable, so the first occurrence wins among ties) and applies the
capability check only to that single lowest-load candidate `m`: the result
equals `endpointOfServer m` — `m`'s endpoint when `m`'s public-key
metadata is present and non-empty (Python's `if not public_key` falsiness)
and the country chain does not hit the empty-`locations` `IndexError`, and
`none` otherwise, even when other candidates expose a key — the capability
filter is not applied before ranking. -/
theorem C1_capability_checked_after_ranking (s0 : Server) (rest : List Server) :
    ∃ m pre post, s0 :: rest = pre ++ m :: post ∧
      (∀ t ∈ pre, loadD m < loadD t) ∧
      (∀ t ∈ s0 :: rest, loadD m ≤ loadD t) ∧
      selectFromPool (s0 :: rest) = endpointOfServer m :=
  selectFromPool_spec s0 rest

/-- C1 witness: the amended theorem instantiated at the concrete
two-candidate pool of the counterexample. -/
theorem C1_capability_checked_after_ranking_witness :
    ∃ m pre post, [srvLowNoKey, srvHighKey] = pre ++ m :: post ∧
      (∀ t ∈ pre, loadD m < loadD t) ∧
      (∀ t ∈ [srvLowNoKey, srvHighKey], loadD m ≤ loadD t) ∧
      selectFromPool [srvLowNoKey, srvHighKey] = endpointOfServer m :=
  C1_capability_checked_after_ranking srvLowNoKey [srvHighKey]

/-- C2 counterexample: a builder holding a rule whose `outboundTag`
("ghost") was never declared; `build` succeeds and emits the rule while no
outbound carries that tag — the structurally inconsistent config is
produced, not rejected. -/
theorem C2_build_validation_counterexample :
    (∃ r, r ∈ danglingBuilder.build.rules ∧ r.outboundTag = "ghost") ∧
    ∀ o ∈ danglingBuilder.build.outbounds, o.tag ≠ "ghost" := by decide

/-- C2 (amended): `XrayConfigBuilder.build` performs no rule→tunnel
reference validation and cannot fail: it copies the accumulated rule and
outbound lists into the document verbatim, and a reachable builder state
yields an emitted rule whose `outboundTag` matches no declared outbound. -/
theorem C2_build_emits_state_verbatim :
    (∀ b : XrayConfigBuilder,
      b.build.rules = b.routing_rules ∧ b.build.outbounds = b.outbounds) ∧
    (∃ b : XrayConfigBuilder, ∃ r, r ∈ b.build.rules ∧
      ∀ o ∈ b.build.outbounds, o.tag ≠ r.outboundTag) :=
  ⟨fun _ => ⟨rfl, rfl⟩,
    danglingBuilder, ⟨some ["x.user@example.com"], none, none, "ghost"⟩,
    by decide, by decide⟩

/-- C3 counterexample: the run in which all three attempts fail transport
returns exactly the same value (`none`) as the run in which the directory
answers with an empty pool every time — the "unavailable" outcome is NOT
distinguishable from the "no match" outcome at the caller. -/
theorem C3_distinguishable_counterexample :
    get_recommended_server .failure .failure .failure =
      get_recommended_server (.envelope (some [])) (.envelope (some []))
        (.envelope (some [])) ∧
    get_recommended_server .failure .failure .failure = none := ⟨rfl, rfl⟩

/-- C3 (amended): transient transport failures are retried up to 3 attempts
total with a 1-second sleep between consecutive failed attempts (three all-
failing attempts perform exactly 2 sleeps and end in the re-`raise`; a
first-attempt success retries nothing; a failure followed by a success
sleeps once); but the 3rd failure's re-raise is swallowed by the function's
own `except Exception` handler, so it surfaces to the caller as `None` —
the same value as the no-match outcome, not a distinguishable one. -/
theorem C3_retry_budget_and_collapsed_failure :
    fetchLoop3 .failure .failure .failure = ⟨.raised, 2⟩ ∧
    get_recommended_server .failure .failure .failure = none ∧
    (∀ (srv : Server) (l : List Server) (a1 a2 : AttemptOutcome),
      fetchLoop3 (.envelope (some (srv :: l))) a1 a2 =
        ⟨.got (some (srv :: l)), 0⟩) ∧
    (∀ (srv : Server) (l : List Server) (a2 : AttemptOutcome),
      fetchLoop3 .failure (.envelope (some (srv :: l))) a2 =
        ⟨.got (some (srv :: l)), 1⟩) := by
  refine ⟨rfl, rfl, fun srv l a1 a2 => ?_, fun srv l a2 => ?_⟩ <;>
    simp [fetchLoop3, fetchLoop, dataTruthy]

/-- C4 counterexample: a second `add_wireguard_outbound` call with the
already-used tag "dup" is accepted (two outbounds carry the tag
afterwards), and a second `add_client` call with an already-used email is
accepted likewise — neither call is rejected. -/
theorem C4_duplicate_accepted_counterexample :
    dupTagBuilder.outbounds.countP (fun o => o.tag == "dup") = 2 ∧
    dupEmailBuilder.clients.countP
      (fun c => c.email == "a.user@example.com") = 2 := by decide

/-- C4 (amended): the add operations enforce no uniqueness at all — each
`add_wireguard_outbound` call unconditionally appends one more outbound
with the given tag and each `add_client` call unconditionally appends one
more client with the given email, whatever the builder already holds. -/
theorem C4_add_operations_append_unconditionally :
    (∀ (b : XrayConfigBuilder) (tag pk sa : String) (sp : Nat) (pub la : String),
      (b.add_wireguard_outbound tag pk sa sp pub la).outbounds.countP
          (fun o => o.tag == tag) =
        b.outbounds.countP (fun o => o.tag == tag) + 1) ∧
    (∀ (b : XrayConfigBuilder) (cid email flow : String),
      (b.add_client cid email flow).clients.countP
          (fun c => c.email == email) =
        b.clients.countP (fun c => c.email == email) + 1) := by
  constructor <;> intros <;>
    simp [XrayConfigBuilder.add_wireguard_outbound, XrayConfigBuilder.add_client,
      List.countP_append, List.countP_cons]

/-- C5: in every finalized rule list, the default block-CN rule and (when
direct egress is enabled) the front-inserted direct blocking rule precede
every per-region allow rule and the direct allow rule: the rule list
decomposes as direct-block prefix, then the CN block rule, then the
per-region allow rules, then the direct allow suffix. -/
theorem C5_blocking_rules_precede_allow_rules (s : Settings)
    (all_countries : List Country) (fetch : Nat → Option Endpoint)
    (uuid : Nat → String) (genKeys : Option (String × String)) :
    (finalConfigs s all_countries fetch uuid genKeys).1.rules =
      (if s.enable_direct then [directBlockRule] else []) ++ [cnBlockRule] ++
        regionRules s fetch (targetCountries s all_countries) ++
        (if s.enable_direct then [directAllowRule] else []) := by
  obtain ⟨cl, tl, heq, -, -⟩ :=
    finalConfigs_shape s all_countries fetch uuid genKeys
  rw [heq]

/-- C6: immediately after `XrayConfigBuilder.__init__`, the outbound list
is exactly the blackhole tunnel tagged "blocked" followed by the freedom
tunnel tagged "direct", the rule list is exactly the one default rule
sending `geosite:cn` to "blocked", and no client exists — for every port
and key, hence in every run. -/
theorem C6_init_baseline (port : Nat) (key : String) :
    (XrayConfigBuilder.init port key).clients = [] ∧
    (XrayConfigBuilder.init port key).outbounds =
      [⟨"blocked", .blackhole⟩, ⟨"direct", .freedom⟩] ∧
    (XrayConfigBuilder.init port key).routing_rules = [cnBlockRule] :=
  ⟨rfl, rfl, rfl⟩

/-- C7: in every run the built document has `inbounds[0].port` equal to the
configured port, `2 + processedCount` outbounds (the direct-egress flag
adds none, which satisfies the claim's "+0 or +1"), `1 + processedCount`
rules plus 2 when direct egress is on, and `processedCount` clients plus 1
when direct egress is on; in Scenario A (regions US and JP both
successful, direct off) that is 2 clients, 4 outbounds and 3 rules. -/
theorem C7_document_shape_counts (s : Settings) (all_countries : List Country)
    (fetch : Nat → Option Endpoint) (uuid : Nat → String)
    (genKeys : Option (String × String)) :
    (finalConfigs s all_countries fetch uuid genKeys).1.inbounds.map
        Inbound.port = [s.xray_port] ∧
    (finalConfigs s all_countries fetch uuid genKeys).1.outbounds.length =
      2 + processedCount s fetch (targetCountries s all_countries) ∧
    (finalConfigs s all_countries fetch uuid genKeys).1.rules.length =
      1 + processedCount s fetch (targetCountries s all_countries) +
        (if s.enable_direct then 2 else 0) ∧
    (finalConfigs s all_countries fetch uuid genKeys).1.inbounds.map
        (fun i => i.clients.length) =
      [processedCount s fetch (targetCountries s all_countries) +
        (if s.enable_direct then 1 else 0)] ∧
    ((finalConfigs setA catAB fetchAB uuStream none).1.inbounds.map
        (fun i => i.clients.length) = [2] ∧
      (finalConfigs setA catAB fetchAB uuStream none).1.outbounds.length = 4 ∧
      (finalConfigs setA catAB fetchAB uuStream none).1.rules.length = 3) := by
  obtain ⟨cl, tl, heq, hcllen, htllen⟩ :=
    finalConfigs_shape s all_countries fetch uuid genKeys
  refine ⟨?_, ?_, ?_, ?_, by decide, by decide, by decide⟩
  · rw [heq]
    rfl
  · rw [heq]
    simp only [List.length_append, htllen, List.length_cons, List.length_nil]
  · rw [heq]
    simp only [List.length_append, regionRules_length]
    by_cases hd : s.enable_direct <;> simp [hd] <;> omega
  · rw [heq]
    simp [hcllen]

/-- C8 counterexample: the same one-candidate pool delivered as a keyed
envelope yields the selected endpoint, but delivered as a flat list yields
`none` (the `.get` call on a list raises `AttributeError`, swallowed by the
outer handler) — the flat-list shape is not extracted correctly. -/
theorem C8_flat_list_counterexample :
    get_recommended_server (.envelope (some [srvHighKey])) .failure .failure =
      some (mkEndpoint srvHighKey "PK" "US") ∧
    get_recommended_server (.flatList [srvHighKey]) .failure .failure =
      none := ⟨by decide, rfl⟩

/-- C8 (amended): the candidate-server selection logic handles only the
keyed-object envelope response shape: a non-empty `servers` list in the
envelope is extracted and selected from, while a flat-list response always
produces `none`, whatever candidates it holds and whatever the later
attempts would return. -/
theorem C8_only_envelope_shape_handled :
    (∀ (l : List Server) (a1 a2 : AttemptOutcome),
      get_recommended_server (.flatList l) a1 a2 = none) ∧
    (∀ (srv : Server) (l : List Server) (a1 a2 : AttemptOutcome),
      get_recommended_server (.envelope (some (srv :: l))) a1 a2 =
        selectFromPool (srv :: l)) := by
  constructor <;> intros <;>
    simp [get_recommended_server, fetchLoop3, fetchLoop, dataTruthy]

/-- C9: the selection step never returns a candidate that lacks the
WireGuard public-key metadata — every returned endpoint is built from a
pool member whose extracted public key is exactly the endpoint's (non-
empty) key — and when no candidate in the pool exposes a public key the
result is the "absent" outcome `none`. -/
theorem C9_select_never_returns_unqualified (pool : List Server) :
    (∀ e, selectFromPool pool = some e →
      ∃ s, s ∈ pool ∧ extractPublicKey s = some e.public_key ∧
        e.public_key ≠ "" ∧
        ∃ cc, serverCountry s = some cc ∧ e = mkEndpoint s e.public_key cc) ∧
    ((∀ s ∈ pool, extractPublicKey s = none) → selectFromPool pool = none) := by
  cases pool with
  | nil => simp [selectFromPool]
  | cons s0 rest =>
    obtain ⟨m, pre, post, hsplit, hpre, hmin, hsel⟩ := selectFromPool_spec s0 rest
    have hm : m ∈ s0 :: rest := by
      rw [hsplit]
      exact List.mem_append_right _ (List.mem_cons_self _ _)
    constructor
    · intro e he
      rw [hsel] at he
      unfold endpointOfServer at he
      cases hpk : extractPublicKey m with
      | none => rw [hpk] at he; simp at he
      | some pk =>
        rw [hpk] at he
        dsimp only at he
        by_cases hpk0 : pk = ""
        · rw [if_pos hpk0] at he
          simp at he
        · rw [if_neg hpk0] at he
          cases hcc : serverCountry m with
          | none => rw [hcc] at he; simp at he
          | some cc =>
            rw [hcc] at he
            obtain rfl : mkEndpoint m pk cc = e := by simpa using he
            exact ⟨m, hm, hpk, hpk0, cc, hcc, rfl⟩
    · intro hall
      rw [hsel]
      unfold endpointOfServer
      rw [hall m hm]

/-- C9 witness: at the concrete pool `[srvLowNoKey]`, no candidate exposes
a key and the selection result is `none`. -/
theorem C9_select_never_returns_unqualified_witness :
    (∀ s ∈ [srvLowNoKey], extractPublicKey s = none) ∧
      selectFromPool [srvLowNoKey] = none :=
  ⟨by decide, (C9_select_never_returns_unqualified [srvLowNoKey]).2 (by decide)⟩

/-- C10: in gluetun (sidecar) mode, each loop iteration registers a
shadowsocks outbound and a gluetun compose service that are mutually
consistent: the outbound's server address is the service's name
(`gluetun-{code}`), its port is 8388, its method is
"chacha20-ietf-poly1305" — the same value the service's
`SHADOWSOCKS_METHOD` environment entry carries — and its password is the
freshly drawn per-region secret that the service's `SHADOWSOCKS_PASSWORD`
environment entry carries. -/
theorem C10_gluetun_sidecar_consistency (s : Settings)
    (fetch : Nat → Option Endpoint) (uuid : Nat → String) (st : MainState)
    (c : Country) (h : s.enable_gluetun = true) :
    ∃ service_name password svc,
      service_name = "gluetun-" ++ pyLower c.code ∧
      (processCountry s fetch uuid st c).xb.outbounds =
        st.xb.outbounds ++
          [⟨"nordvpn-" ++ pyLower c.code,
            .shadowsocks service_name 8388 "chacha20-ietf-poly1305" password⟩] ∧
      (processCountry s fetch uuid st c).cb.services =
        st.cb.services ++ [(service_name, svc)] ∧
      svc.container_name = service_name ∧
      ("SHADOWSOCKS_PASSWORD=" ++ password) ∈ svc.environment ∧
      "SHADOWSOCKS_METHOD=chacha20-ietf-poly1305" ∈ svc.environment := by
  refine ⟨"gluetun-" ++ pyLower c.code, uuid (st.nextId + 1),
    { image := "qmcgaw/gluetun"
      container_name := "gluetun-" ++ pyLower c.code
      cap_add := ["NET_ADMIN"]
      environment := ComposeBuilder.gluetunEnvVars s.nord_private_key none
        (some c.name) (some (uuid (st.nextId + 1)))
      volumes := []
      ports := []
      networks := ["xray_net"]
      restart := "always"
      depends_on := [] }, rfl, ?_, ?_, rfl, ?_, ?_⟩ <;>
    simp [processCountry, h, XrayConfigBuilder.add_client,
      XrayConfigBuilder.add_routing_rule, XrayConfigBuilder.add_shadowsocks_outbound,
      ComposeBuilder.add_gluetun_service, ComposeBuilder.gluetunEnvVars]

/-- C10 witness: the consistency statement at a concrete gluetun-mode run
state (fresh builders, country US). -/
theorem C10_gluetun_sidecar_consistency_witness :
    setG.enable_gluetun = true ∧
    ∃ service_name password svc,
      service_name = "gluetun-" ++ pyLower countryUS.code ∧
      (processCountry setG fetchAB uuStream stG0 countryUS).xb.outbounds =
        stG0.xb.outbounds ++
          [⟨"nordvpn-" ++ pyLower countryUS.code,
            .shadowsocks service_name 8388 "chacha20-ietf-poly1305" password⟩] ∧
      (processCountry setG fetchAB uuStream stG0 countryUS).cb.services =
        stG0.cb.services ++ [(service_name, svc)] ∧
      svc.container_name = service_name ∧
      ("SHADOWSOCKS_PASSWORD=" ++ password) ∈ svc.environment ∧
      "SHADOWSOCKS_METHOD=chacha20-ietf-poly1305" ∈ svc.environment :=
  ⟨rfl, C10_gluetun_sidecar_consistency setG fetchAB uuStream stG0 countryUS rfl⟩

end XNordGen
